import Mathlib

/-!
Verification of the Nokia SR OS CLI driver (`nokia_sros_ssh.py`).

The Python source is shallowly embedded below:

* string membership (`"x" in s`) becomes `containsSub`;
* the three regular expressions used by the driver
  (`\*?(.*?)(>.*)*#`, `(\d+)\s+\w+\s+free`,
  `\S+\s+\S+\s+(\d+)\s+<escaped filename>`) are embedded as executable
  backtracking matchers with Python `re.search` leftmost/greedy/lazy
  semantics;
* the interactive channel (an external collaborator of the driver:
  `write_channel`, `read_until_pattern`, `read_until_prompt`,
  `send_command`) is modelled as a scripted channel: writes are logged in
  order and each read consumes the next scripted chunk;
* Python exceptions become an explicit error type `PyErr` and fallible
  operations return `Except PyErr _`; a bare Python `None` result is
  `Option.none`.
-/

/-- Python substring test `needle in hay` on strings. -/
def containsSub (needle hay : String) : Bool :=
  decide (needle.toList <:+: hay.toList)

theorem containsSub_iff (n h : String) :
    containsSub n h = true ↔ n.toList <:+: h.toList := by
  simp [containsSub]

theorem containsSub_trans {a b c : String} (h1 : containsSub a b = true)
    (h2 : containsSub b c = true) : containsSub a c = true := by
  rw [containsSub_iff] at *
  exact List.IsInfix.trans h1 h2

theorem singleton_infix_iff (c : Char) (l : List Char) :
    [c] <:+: l ↔ c ∈ l := by
  constructor
  · intro h
    exact h.sublist.subset (by simp)
  · intro h
    obtain ⟨s, t, rfl⟩ := List.append_of_mem h
    exact ⟨s, t, by simp⟩

theorem containsSub_single_iff (c : Char) (s : String) :
    containsSub ⟨[c]⟩ s = true ↔ c ∈ s.toList := by
  rw [containsSub_iff]
  exact singleton_infix_iff c s.toList

/-- CLI personality of the device, per the spec's data model. -/
inductive Personality where
  | Classical
  | ModelDriven
deriving DecidableEq

/-- Python exceptions raised by the embedded driver code.
`attributeErrorNone` models the `AttributeError` raised by calling
`.group(1)` on `None` when `re.search` found no match. -/
inductive PyErr where
  | valueError (msg : String)
  | ioError (msg : String)
  | attributeErrorNone
deriving DecidableEq

/-- Is the result a Python `ValueError` (the spec's `ParseError` /
`ExitConfigError` carrier)? -/
def isValueErr {α : Type} : Except PyErr α → Bool
  | .error (.valueError _) => true
  | _ => false

/-! ### The prompt-normalization regex `\*?(.*?)(>.*)*#`

`re.search` of this pattern, returning `group(1)`.  The embedding is a
direct transcription of the backtracking search:

* `hashBeforeNl t` — a `'#'` occurs in `t` before any newline; this is
  exactly when one greedy `>.*` iteration (followed by `#`) can close the
  match from a position holding `'>'`;
* `qMatch t` — the tail pattern `(>.*)*#` matches at the start of `t`;
* `coreScan t` — the lazy group `(.*?)` grows character by character
  (never across a newline) until `(>.*)*#` matches; returns the group;
* `searchFrom t` — leftmost search position; the optional leading `\*?`
  greedily consumes a `'*'` (if the match fails with the star consumed it
  also fails without, since `(>.*)*#` never matches at a `'*'`).
-/

def hashBeforeNl : List Char → Bool
  | [] => false
  | c :: r => if c = '#' then true else if c = '\n' then false else hashBeforeNl r

def qMatch : List Char → Bool
  | [] => false
  | c :: r => if c = '#' then true else if c = '>' then hashBeforeNl r else false

def coreScan : List Char → Option (List Char)
  | [] => none
  | c :: r =>
    if qMatch (c :: r) then some []
    else if c = '\n' then none
    else (coreScan r).map (fun l => c :: l)

def searchFrom : List Char → Option (List Char)
  | [] => none
  | c :: r =>
    match coreScan (if c = '*' then r else c :: r) with
    | some core => some core
    | none => searchFrom r

/-- `NokiaSrosSSH.set_base_prompt`: runs
`re.search(r"\*?(.*?)(>.*)*#", cur_base_prompt)` and, on a match, stores
and returns `group(1)`; on no match it returns Python `None` and the
stored base prompt is left unchanged.  The generic base-prompt capture
performed by the superclass is an external collaborator; modelled from
the spec: it returns the raw captured prompt. -/
def nokiaSetBasePrompt (curBasePrompt : String) : Option String :=
  (searchFrom curBasePrompt.toList).map (fun l => ⟨l⟩)

/-- The base prompt in effect after `set_base_prompt` ran on raw prompt
`raw`: the regex group on a match, the raw prompt unmodified otherwise. -/
def effBasePrompt (raw : String) : String :=
  match nokiaSetBasePrompt raw with
  | some p => p
  | none => raw

/-- `NokiaSrosSSH.session_preparation` personality classification:
after `set_base_prompt()`, the branch tests `"@" in self.base_prompt`. -/
def sessionPersonality (raw : String) : Personality :=
  if containsSub "@" (effBasePrompt raw) then .ModelDriven else .Classical

/-! Lemmas about the prompt matcher. -/

theorem hashBeforeNl_eq_false_of_not_mem {t : List Char} (h : '#' ∉ t) :
    hashBeforeNl t = false := by
  induction t with
  | nil => rfl
  | cons c r ih =>
    simp only [List.mem_cons, not_or] at h
    simp only [hashBeforeNl, if_neg (Ne.symm h.1)]
    split
    · rfl
    · exact ih h.2

theorem qMatch_eq_false_of_not_mem {t : List Char} (h : '#' ∉ t) :
    qMatch t = false := by
  cases t with
  | nil => rfl
  | cons c r =>
    simp only [List.mem_cons, not_or] at h
    simp only [qMatch, if_neg (Ne.symm h.1)]
    split
    · exact hashBeforeNl_eq_false_of_not_mem h.2
    · rfl

theorem coreScan_eq_none_of_not_mem {t : List Char} (h : '#' ∉ t) :
    coreScan t = none := by
  induction t with
  | nil => rfl
  | cons c r ih =>
    simp only [coreScan, qMatch_eq_false_of_not_mem h]
    simp only [List.mem_cons, not_or] at h
    simp [ih h.2]

theorem searchFrom_eq_none_of_not_mem {t : List Char} (h : '#' ∉ t) :
    searchFrom t = none := by
  induction t with
  | nil => rfl
  | cons c r ih =>
    simp only [List.mem_cons, not_or] at h
    have hr : '#' ∉ r := h.2
    have hcr : '#' ∉ c :: r := by simp [not_or, h.1, h.2, Ne.symm]
    simp only [searchFrom]
    split
    · next core heq =>
      exfalso
      by_cases hc : c = '*'
      · rw [if_pos hc, coreScan_eq_none_of_not_mem hr] at heq
        exact Option.noConfusion heq
      · rw [if_neg hc, coreScan_eq_none_of_not_mem hcr] at heq
        exact Option.noConfusion heq
    · exact ih hr

theorem coreScan_not_mem_hash {t l : List Char} (h : coreScan t = some l) :
    '#' ∉ l := by
  induction t generalizing l with
  | nil => simp [coreScan] at h
  | cons c r ih =>
    simp only [coreScan] at h
    split at h
    · cases h
      simp
    · split at h
      · exact Option.noConfusion h
      · next hq _ =>
        cases heq : coreScan r with
        | none => rw [heq] at h; exact Option.noConfusion h
        | some l0 =>
          rw [heq] at h
          simp only [Option.map] at h
          cases h
          have hc : c ≠ '#' := by
            intro hc
            subst hc
            simp [qMatch] at hq
          simp only [List.mem_cons, not_or]
          exact ⟨Ne.symm hc, ih heq⟩

theorem searchFrom_not_mem_hash {t l : List Char} (h : searchFrom t = some l) :
    '#' ∉ l := by
  induction t generalizing l with
  | nil => simp [searchFrom] at h
  | cons c r ih =>
    simp only [searchFrom] at h
    split at h
    · next core heq =>
      cases h
      exact coreScan_not_mem_hash heq
    · exact ih h

theorem coreScan_mem {t l : List Char} (h : coreScan t = some l) :
    ∀ a ∈ l, a ∈ t := by
  induction t generalizing l with
  | nil => simp [coreScan] at h
  | cons c r ih =>
    simp only [coreScan] at h
    split at h
    · cases h; simp
    · split at h
      · exact Option.noConfusion h
      · cases heq : coreScan r with
        | none => rw [heq] at h; exact Option.noConfusion h
        | some l0 =>
          rw [heq] at h
          simp only [Option.map] at h
          cases h
          intro a ha
          rcases List.mem_cons.mp ha with h1 | h2
          · simp [h1]
          · exact List.mem_cons_of_mem _ (ih heq a h2)

theorem searchFrom_mem {t l : List Char} (h : searchFrom t = some l) :
    ∀ a ∈ l, a ∈ t := by
  induction t generalizing l with
  | nil => simp [searchFrom] at h
  | cons c r ih =>
    simp only [searchFrom] at h
    split at h
    · next core heq =>
      cases h
      intro a ha
      by_cases hc : c = '*'
      · rw [if_pos hc] at heq
        exact List.mem_cons_of_mem _ (coreScan_mem heq a ha)
      · rw [if_neg hc] at heq
        exact coreScan_mem heq a ha
    · intro a ha
      exact List.mem_cons_of_mem _ (ih h a ha)

theorem effBasePrompt_match {raw : String} {l : List Char}
    (h : searchFrom raw.toList = some l) : effBasePrompt raw = ⟨l⟩ := by
  have h2 : searchFrom raw.data = some l := h
  simp [effBasePrompt, nokiaSetBasePrompt, h2, Option.map]

theorem effBasePrompt_no_match {raw : String}
    (h : searchFrom raw.toList = none) : effBasePrompt raw = raw := by
  have h2 : searchFrom raw.data = none := h
  simp [effBasePrompt, nokiaSetBasePrompt, h2, Option.map]

/-- C8: base-prompt normalization is idempotent: normalizing an
already-normalized prompt (non-matching inputs being used unmodified, as
the fallback of `set_base_prompt` does) returns that same string. -/
theorem c8_normalize_idempotent (s : String) :
    effBasePrompt (effBasePrompt s) = effBasePrompt s := by
  cases hs : searchFrom s.toList with
  | none =>
    rw [effBasePrompt_no_match hs, effBasePrompt_no_match hs]
  | some l =>
    rw [effBasePrompt_match hs]
    have hnm : '#' ∉ l := searchFrom_not_mem_hash hs
    have htl : (String.toList ⟨l⟩) = l := rfl
    apply effBasePrompt_no_match
    rw [htl]
    exact searchFrom_eq_none_of_not_mem hnm

/-- C1 counterexample: the raw first-read prompt `x>@y#` contains the
marker character `@`, yet `session_preparation` classifies the session
as Classical, because the `@` test runs on the prompt
`set_base_prompt` already normalized (here: `x`), not on the raw
prompt. -/
theorem c1_counterexample :
    containsSub "@" "x>@y#" = true ∧
    sessionPersonality "x>@y#" = Personality.Classical ∧
    effBasePrompt "x>@y#" = "x" := by
  refine ⟨by decide, by decide, by decide⟩

/-- C1 amended: personality classification is computed from the
normalized base prompt (after `set_base_prompt` stripped the leading
`*` and the `>`-introduced suffixes; a non-matching raw prompt is used
unmodified): ModelDriven exactly when the normalized prompt contains
`@`, Classical otherwise.  Presence of `@` in the raw prompt remains a
necessary (but not sufficient) condition for ModelDriven. -/
theorem c1_personality_amended (raw : String) :
    (sessionPersonality raw = Personality.ModelDriven ↔
      containsSub "@" (effBasePrompt raw) = true) ∧
    (sessionPersonality raw = Personality.Classical ↔
      containsSub "@" (effBasePrompt raw) = false) ∧
    (sessionPersonality raw = Personality.ModelDriven →
      containsSub "@" raw = true) := by
  have hat : ("@" : String) = ⟨['@']⟩ := rfl
  refine ⟨?_, ?_, ?_⟩
  · unfold sessionPersonality
    split <;> simp_all
  · unfold sessionPersonality
    split <;> simp_all
  · intro h
    have h1 : containsSub "@" (effBasePrompt raw) = true := by
      unfold sessionPersonality at h
      split at h
      · assumption
      · exact absurd h (by simp)
    rw [hat] at h1 ⊢
    rw [containsSub_single_iff] at h1 ⊢
    cases hs : searchFrom raw.toList with
    | none => rw [effBasePrompt_no_match hs] at h1; exact h1
    | some l =>
      rw [effBasePrompt_match hs] at h1
      have htl : (String.toList ⟨l⟩) = l := rfl
      rw [htl] at h1
      exact searchFrom_mem hs '@' h1

/-- C1 witness: a prompt whose normalized form keeps the `@` is
classified ModelDriven, and the theorem recovers `@ ∈ raw`. -/
theorem c1_witness : containsSub "@" "A:u@n#" = true :=
  (c1_personality_amended "A:u@n#").2.2 (by decide)

/-- C2 counterexample: preparing with raw prompt `*A:node-1@>config#`
normalizes the base prompt to `A:node-1@` — the `@` (user separator) is
part of the non-greedy core and is retained — not to `A:node-1` as the
claim states. -/
theorem c2_counterexample :
    effBasePrompt "*A:node-1@>config#" = "A:node-1@" ∧
    ("A:node-1@" : String) ≠ "A:node-1" := by
  refine ⟨by decide, by decide⟩

/-- C2 amended: raw prompt `*A:node-1#` yields personality Classical and
normalized base prompt `A:node-1`; raw prompt `*A:node-1@>config#`
yields personality ModelDriven and normalized base prompt `A:node-1@`
(leading `*` and the `>`-introduced suffix stripped, trailing `#`
removed, the `@` retained). -/
theorem c2_prepare_scenarios :
    effBasePrompt "*A:node-1#" = "A:node-1" ∧
    sessionPersonality "*A:node-1#" = Personality.Classical ∧
    effBasePrompt "*A:node-1@>config#" = "A:node-1@" ∧
    sessionPersonality "*A:node-1@>config#" = Personality.ModelDriven := by
  refine ⟨by decide, by decide, by decide, by decide⟩

/-! ### Session state, scripted channel, and the config-mode operations -/

/-- Session fields read by the config-mode methods: the (already
normalized) base prompt, and the `global_cmd_verify` knob, a Python
tri-state (`None` / `True` / `False`). -/
structure Sess where
  basePrompt : String
  globalCmdVerify : Option Bool

/-- Python `self.global_cmd_verify is not False`. -/
def cmdVerifyOn (st : Sess) : Bool :=
  decide (st.globalCmdVerify ≠ some false)

/-- The interactive channel, an external collaborator of the driver.
Modelled from the spec: writes are sent in order; each blocking read
(`read_until_pattern` / `read_until_prompt`) returns the next chunk of
scripted device output. -/
structure Chan where
  pending : List String
  sent : List String

def writeChannel (ch : Chan) (data : String) : Chan :=
  { ch with sent := ch.sent ++ [data] }

/-- `read_until_pattern`: blocks until the pattern appears; in the
scripted model it consumes and returns the next scripted chunk (the
script is assumed to satisfy the pattern, which is therefore unused). -/
def readUntilPattern (pat : String) (ch : Chan) : String × Chan :=
  (ch.pending.headD "", { ch with pending := ch.pending.tail })

/-- `read_until_prompt`: same scripted behavior. -/
def readUntilPrompt (ch : Chan) : String × Chan :=
  (ch.pending.headD "", { ch with pending := ch.pending.tail })

/-- `self.RETURN`. -/
def RETURN : String := "\n"

/-- `normalize_cmd`: appends the line terminator to the command.
Modelled from the spec (channel plumbing). -/
def normalizeCmd (cmd : String) : String := cmd ++ RETURN

/-- `NokiaSrosSSH._exit_all`: write `exit all`, then read until the
command echo (or until a plain prompt when echo verification is off). -/
def exitAll (st : Sess) (ch : Chan) : String × Chan :=
  let ch1 := writeChannel ch (normalizeCmd "exit all")
  if cmdVerifyOn st then readUntilPattern "exit all" ch1
  else readUntilPrompt ch1

/-- `NokiaSrosSSH._discard`: in model-driven personality only, write
`discard`, read the echo when verification is on, and read until a
prompt when the new output does not yet show the `@` marker. -/
def nokiaDiscard (st : Sess) (ch : Chan) : String × Chan :=
  if containsSub "@" st.basePrompt then
    let ch1 := writeChannel ch (normalizeCmd "discard")
    let r1 := if cmdVerifyOn st then readUntilPattern "discard" ch1 else ("", ch1)
    if containsSub "@" r1.1 then r1
    else
      let r2 := readUntilPrompt r1.2
      (r1.1 ++ r2.1, r2.2)
  else ("", ch)

/-- The generic config-mode check of the connection superclass, an
external primitive.  Modelled from the spec: write a line terminator,
read the fresh prompt/output fragment, and test it for the marker. -/
def superCheckConfigMode (checkString pat : String) (ch : Chan) : Bool × Chan :=
  let ch1 := writeChannel ch RETURN
  let r := readUntilPattern pat ch1
  (containsSub checkString r.1, r.2)

/-- `NokiaSrosSSH.check_config_mode`: Classical CLI is never in config
mode; model-driven CLI defers to the generic check with marker
`(ex)[` and prompt pattern `@`. -/
def checkConfigMode (st : Sess) (ch : Chan) : Bool × Chan :=
  if containsSub "@" st.basePrompt then superCheckConfigMode "(ex)[" "@" ch
  else (false, ch)

/-- The send/read sequence of `NokiaSrosSSH.exit_config_mode` before its
final re-check: `_exit_all`, then — in model-driven personality with the
config marker still in the output — an automatic `_discard` when the
dirty marker `*(ex)[` is present, followed by `quit-config`. -/
def exitConfigSeq (st : Sess) (ch : Chan) : String × Chan :=
  let r0 := exitAll st ch
  if containsSub "@" st.basePrompt && containsSub "(ex)[" r0.1 then
    let r1 :=
      if containsSub "*(ex)[" r0.1 then
        let d := nokiaDiscard st r0.2
        (r0.1 ++ d.1, d.2)
      else r0
    let ch2 := writeChannel r1.2 (normalizeCmd "quit-config")
    let q := if cmdVerifyOn st then readUntilPattern "quit-config" ch2
             else readUntilPrompt ch2
    (r1.1 ++ q.1, q.2)
  else r0

/-- `NokiaSrosSSH.exit_config_mode`: run the exit sequence, then
re-check config mode; raise `ValueError("Failed to exit configuration
mode")` if it still reports active, else return the transcript. -/
def exitConfigMode (st : Sess) (ch : Chan) : Except PyErr (String × Chan) :=
  let r := exitConfigSeq st ch
  let c := checkConfigMode st r.2
  if c.1 then .error (.valueError "Failed to exit configuration mode")
  else .ok (r.1, c.2)

/-- `NokiaSrosSSH.commit`: `_exit_all`; when model-driven and the dirty
marker `*(ex)[` shows in the output, write `commit`, read its echo when
verification is on, and read until `@` when the new output lacks it. -/
def nokiaCommit (st : Sess) (ch : Chan) : String × Chan :=
  let r0 := exitAll st ch
  if containsSub "@" st.basePrompt && containsSub "*(ex)[" r0.1 then
    let ch1 := writeChannel r0.2 (normalizeCmd "commit")
    let r1 := if cmdVerifyOn st then readUntilPattern "commit" ch1 else ("", ch1)
    let r2 := if containsSub "@" r1.1 then ("", r1.2) else readUntilPattern "@" r1.2
    (r0.1 ++ (r1.1 ++ r2.1), r2.2)
  else r0

/-- C5: `exit_config_mode` raises `ValueError("Failed to exit
configuration mode")` exactly when the config-mode re-check performed
after the exit-all / discard / quit-config sequence still reports
active; when the re-check reports inactive it returns the accumulated
transcript without error. -/
theorem c5_exit_config_error_iff (st : Sess) (ch : Chan) :
    (exitConfigMode st ch =
        Except.error (PyErr.valueError "Failed to exit configuration mode") ↔
      (checkConfigMode st (exitConfigSeq st ch).2).1 = true) ∧
    ((checkConfigMode st (exitConfigSeq st ch).2).1 = false →
      exitConfigMode st ch =
        Except.ok ((exitConfigSeq st ch).1,
          (checkConfigMode st (exitConfigSeq st ch).2).2)) := by
  unfold exitConfigMode
  constructor
  · cases hc : (checkConfigMode st (exitConfigSeq st ch).2).1 <;> simp [hc]
  · intro h
    simp [h]

/-- C5 witness: a Classical session is never reported in config mode, so
`exit_config_mode` returns the exit-all transcript without error. -/
theorem c5_witness :
    exitConfigMode ⟨"A:n", none⟩ ⟨["all done"], []⟩ =
      Except.ok ("all done", ⟨[], [normalizeCmd "exit all"]⟩) :=
  (c5_exit_config_error_iff ⟨"A:n", none⟩ ⟨["all done"], []⟩).2 (by decide)

/-- C6: when the exit-all output carries no dirty marker `*(ex)[` — and
in Classical personality always — `commit` returns the exit-all
transcript alone and the channel write log gains only the `exit all`
command: no `commit` is ever written. -/
theorem c6_commit_noop (st : Sess) (ch : Chan)
    (h : containsSub "@" st.basePrompt = false ∨
         containsSub "*(ex)[" (exitAll st ch).1 = false) :
    nokiaCommit st ch = exitAll st ch ∧
    (nokiaCommit st ch).2.sent = ch.sent ++ [normalizeCmd "exit all"] := by
  have hcond : (containsSub "@" st.basePrompt &&
      containsSub "*(ex)[" (exitAll st ch).1) = false := by
    rcases h with h | h <;> simp [h]
  have h1 : nokiaCommit st ch = exitAll st ch := by
    unfold nokiaCommit
    simp only [hcond, Bool.false_eq_true, if_false]
  refine ⟨h1, ?_⟩
  rw [h1]
  unfold exitAll
  cases hv : cmdVerifyOn st <;>
    simp [readUntilPattern, readUntilPrompt, writeChannel]

/-- C6 witness: Classical personality, concrete script. -/
theorem c6_witness :
    nokiaCommit ⟨"A:n", none⟩ ⟨["done"], []⟩ =
      exitAll ⟨"A:n", none⟩ ⟨["done"], []⟩ ∧
    (nokiaCommit ⟨"A:n", none⟩ ⟨["done"], []⟩).2.sent =
      [] ++ [normalizeCmd "exit all"] :=
  c6_commit_noop ⟨"A:n", none⟩ ⟨["done"], []⟩ (Or.inl (by decide))

/-- C4: in ModelDriven personality, when `exit_config_mode` observes the
dirty marker `*(ex)[` in the echoed exit-all output, it invokes
`_discard` before sending `quit-config`: the write log gains
`exit all`, `discard`, `quit-config` in that order, and the returned
transcript is the exit-all output followed by the discard exchange
followed by the quit-config exchange.  (`o1` is the scripted exit-all
echo, `d1` the discard exchange, `q1` the quit-config exchange, `k1`
the fragment read by the final config-mode re-check.) -/
theorem c4_exit_config_discard_order (bp : String) (gcv : Option Bool)
    (o1 d1 q1 k1 : String) (rest : List String) (s0 : List String)
    (hbp : containsSub "@" bp = true)
    (hdirty : containsSub "*(ex)[" o1 = true)
    (hgcv : gcv ≠ some false)
    (hd1 : containsSub "@" d1 = true)
    (hk1 : containsSub "(ex)[" k1 = false) :
    exitConfigMode ⟨bp, gcv⟩ ⟨o1 :: d1 :: q1 :: k1 :: rest, s0⟩ =
      Except.ok (o1 ++ d1 ++ q1,
        ⟨rest, s0 ++ [normalizeCmd "exit all", normalizeCmd "discard",
                      normalizeCmd "quit-config", RETURN]⟩) := by
  have hmark : containsSub "(ex)[" o1 = true :=
    containsSub_trans (by decide) hdirty
  have hv : cmdVerifyOn ⟨bp, gcv⟩ = true := by simp [cmdVerifyOn, hgcv]
  unfold exitConfigMode exitConfigSeq exitAll nokiaDiscard checkConfigMode
    superCheckConfigMode
  simp only [hv, hbp, hdirty, hmark, hd1, hk1, writeChannel, readUntilPattern,
    readUntilPrompt, List.headD, List.tail_cons, if_true, Bool.and_self,
    Bool.true_and, Bool.and_true, if_false]
  simp [List.append_assoc]

/-- C4 witness: concrete model-driven session and script. -/
theorem c4_witness :
    exitConfigMode ⟨"A:u@n", none⟩
        ⟨["*(ex)[ edit", "discard A:u@n", "quit-config ok", "A:u@n# "], []⟩ =
      Except.ok ("*(ex)[ edit" ++ "discard A:u@n" ++ "quit-config ok",
        ⟨[], [] ++ [normalizeCmd "exit all", normalizeCmd "discard",
                    normalizeCmd "quit-config", RETURN]⟩) :=
  c4_exit_config_discard_order "A:u@n" none "*(ex)[ edit" "discard A:u@n"
    "quit-config ok" "A:u@n# " [] [] (by decide) (by decide) (by decide)
    (by decide) (by decide)

/-! ### File transfer (`NokiaSrosFileTransfer`)

The SCP control session is reduced to the fields the methods read:
`direction` is kept as a raw string (Python compares it with `"put"` /
`"get"` and silently falls through otherwise); `device` is the
`send_command` oracle of the control channel (an external collaborator:
command in, captured output out); `localSize` / `localExists` stand for
`os.stat(...).st_size` and `os.path.exists`. -/
structure FtState where
  basePrompt : String
  fileSystem : String
  sourceFile : String
  destFile : String
  direction : String
  device : String → String
  localSize : String → Nat
  localExists : String → Bool

/-- `NokiaSrosFileTransfer._get_cmd_prefix`: `//` on a model-driven
control session, empty otherwise. -/
def cmdPfx (st : FtState) : String :=
  if containsSub "@" st.basePrompt then "//" else ""

/-! #### The regex `(\d+)\s+\w+\s+free` (remote_space_available)

Character classes follow Python `re` on ASCII input. -/

def isSpaceCh (c : Char) : Bool :=
  c = ' ' || c = '\t' || c = '\n' || c = '\r' || c = '\x0b' || c = '\x0c'

def isDigitCh (c : Char) : Bool := '0' ≤ c && c ≤ '9'

def isWordCh (c : Char) : Bool := c.isAlpha || isDigitCh c || c = '_'

/-- `p+ k`: one-or-more `p`-characters followed by continuation `k`
(existence under full backtracking; order is irrelevant for a Bool). -/
def afterPlus (p : Char → Bool) (k : List Char → Bool) : List Char → Bool
  | [] => false
  | c :: r => p c && (k r || afterPlus p k r)

/-- Numeric value of a digit run, as Python `int` on the digit string. -/
def digitsVal (l : List Char) : Nat :=
  l.foldl (fun n c => 10 * n + (c.toNat - 48)) 0

/-- The tail `\s+\w+\s+free` of the space-available pattern. -/
def tailAfterDigits (t : List Char) : Bool :=
  afterPlus isSpaceCh
    (afterPlus isWordCh
      (afterPlus isSpaceCh (fun v => "free".toList.isPrefixOf v))) t

/-- `re.search(r"(\d+)\s+\w+\s+free", s)` returning `group(1)` as a
number.  At a digit position the greedy `\d+` commits to the maximal
run (a shorter run leaves a digit where `\s+` must match, which always
fails), so the group is the full run and the search advances leftmost
to the first run whose tail matches. -/
def searchSpaceAvail : List Char → Option Nat
  | [] => none
  | c :: r =>
    if isDigitCh c && tailAfterDigits ((c :: r).dropWhile isDigitCh) then
      some (digitsVal ((c :: r).takeWhile isDigitCh))
    else searchSpaceAvail r

/-- `NokiaSrosFileTransfer.remote_space_available`: sends the prefixed
`file dir <file_system>` command and extracts the free-space figure.
When the pattern is absent, `re.search` returns `None` and the
unguarded `match.group(1)` raises `AttributeError`. -/
def remoteSpaceAvailable (st : FtState) : Except PyErr Nat :=
  let remoteCmd := cmdPfx st ++ "file dir " ++ st.fileSystem
  let remoteOutput := st.device remoteCmd
  match searchSpaceAvail remoteOutput.toList with
  | some n => .ok n
  | none => .error .attributeErrorNone

/-! #### The regex `\S+\s+\S+\s+(\d+)\s+<re.escape(remote_file)>`
(remote_file_size), with full backtracking in Python's
leftmost/greedy order. -/

/-- `p+ k` with an `Option`-valued continuation, greedy order: the
longest run is tried first, mirroring Python backtracking. -/
def plusLongest (p : Char → Bool) (k : List Char → Option Nat) :
    List Char → Option Nat
  | [] => none
  | c :: r => if p c then (plusLongest p k r).orElse (fun _ => k r) else none

/-- The capture group `(\d+)` followed by continuation `k`; greedy:
longer digit runs are tried first, and the group value of the first
successful path is returned. -/
def digitPlus (k : List Char → Bool) (acc : Nat) : List Char → Option Nat
  | [] => none
  | c :: r =>
    if isDigitCh c then
      (digitPlus k (10 * acc + (c.toNat - 48)) r).orElse
        (fun _ => if k r then some (10 * acc + (c.toNat - 48)) else none)
    else none

/-- Match `\S+\s+\S+\s+(\d+)\s+<filename>` at the head of `t`,
returning the captured size. -/
def remoteSizeAt (f : List Char) (t : List Char) : Option Nat :=
  plusLongest (fun c => !isSpaceCh c)
    (plusLongest isSpaceCh
      (plusLongest (fun c => !isSpaceCh c)
        (plusLongest isSpaceCh
          (digitPlus (afterPlus isSpaceCh (fun v => f.isPrefixOf v)) 0)))) t

/-- `re.search` of the listing pattern: leftmost position wins. -/
def searchFileSize (f : List Char) : List Char → Option Nat
  | [] => none
  | c :: r => (remoteSizeAt f (c :: r)).orElse (fun _ => searchFileSize f r)

/-- The parsing stage of `NokiaSrosFileTransfer.remote_file_size` on a
captured directory listing: `File Not Found` raises `IOError` first;
then the listing line is parsed, a missing match raising
`ValueError("Filename entry not found in dir output")`. -/
def remoteFileSizeParse (remoteFile remoteOut : String) : Except PyErr Nat :=
  if containsSub "File Not Found" remoteOut then
    .error (.ioError "Unable to find file on remote system")
  else
    match searchFileSize remoteFile.toList remoteOut.toList with
    | some n => .ok n
    | none => .error (.valueError "Filename entry not found in dir output")

/-- `NokiaSrosFileTransfer.remote_file_size` with the remote file
resolved (as on every internal call site): sends the prefixed
`file dir <file_system>/<remote_file>` command and parses the output. -/
def remoteFileSize (st : FtState) (remoteFile : String) : Except PyErr Nat :=
  let remoteCmd :=
    cmdPfx st ++ "file dir " ++ st.fileSystem ++ "/" ++ remoteFile
  remoteFileSizeParse remoteFile (st.device remoteCmd)

/-- `NokiaSrosFileTransfer.check_file_exists` (`remoteCmd = ""` selects
the default command, as the Python falsy test does). -/
def checkFileExists (st : FtState) (remoteCmd : String) :
    Except PyErr (Option Bool) :=
  if st.direction = "put" then
    let cmd :=
      if remoteCmd = "" then
        cmdPfx st ++ "file dir " ++ st.fileSystem ++ "/" ++ st.destFile
      else remoteCmd
    let remoteOut := st.device cmd
    if containsSub "File Not Found" remoteOut then .ok (some false)
    else if containsSub st.destFile remoteOut then .ok (some true)
    else .error (.valueError "Unexpected output from check_file_exists")
  else if st.direction = "get" then .ok (some (st.localExists st.destFile))
  else .ok none

/-- `NokiaSrosFileTransfer.process_md5`: the body is `pass` — no hash is
ever computed and the call returns Python `None`. -/
def processMd5 (md5Output : String) (pat : String) : Option String := none

/-- `NokiaSrosFileTransfer.verify_file`: size comparison between the
local file and the remote listing entry; a direction other than
`put`/`get` falls through to `None`. -/
def verifyFile (st : FtState) : Except PyErr (Option Bool) :=
  if st.direction = "put" then
    (remoteFileSize st st.destFile).map
      (fun n => some (decide (st.localSize st.sourceFile = n)))
  else if st.direction = "get" then
    (remoteFileSize st st.sourceFile).map
      (fun n => some (decide (n = st.localSize st.destFile)))
  else .ok none

/-- `NokiaSrosFileTransfer.compare_md5`: a pure delegate to
`verify_file`. -/
def compareMd5 (st : FtState) : Except PyErr (Option Bool) :=
  verifyFile st

/-- C3 counterexample: when the free-space pattern is absent from the
device output, `remote_space_available` does not fail with the
distinguished `ParseError` (a `ValueError` in this driver): the
unguarded `match.group(1)` call raises `AttributeError` on `None`. -/
theorem c3_counterexample :
    remoteSpaceAvailable
        ⟨"A:n", "cf3:", "s.cfg", "d.cfg", "put",
          fun _ => "no space figure in this output", fun _ => 0,
          fun _ => false⟩ =
      Except.error PyErr.attributeErrorNone ∧
    isValueErr (remoteSpaceAvailable
        ⟨"A:n", "cf3:", "s.cfg", "d.cfg", "put",
          fun _ => "no space figure in this output", fun _ => 0,
          fun _ => false⟩) = false := by
  refine ⟨by rfl, by rfl⟩

/-- C3 amended: `remote_space_available` issues the prefixed
`file dir <file_system>` command; when the numeric `N ... free` pattern
matches the output it returns `N`, and when the pattern is absent it
fails with an unguarded `AttributeError` (calling `.group(1)` on the
`None` returned by `re.search`), not with a distinguished parse
error. -/
theorem c3_space_available_amended (st : FtState) :
    (∀ n, searchSpaceAvail
        (st.device (cmdPfx st ++ "file dir " ++ st.fileSystem)).toList = some n →
      remoteSpaceAvailable st = Except.ok n) ∧
    (searchSpaceAvail
        (st.device (cmdPfx st ++ "file dir " ++ st.fileSystem)).toList = none →
      remoteSpaceAvailable st = Except.error PyErr.attributeErrorNone) := by
  constructor
  · intro n h
    unfold remoteSpaceAvailable
    simp only [h]
  · intro h
    unfold remoteSpaceAvailable
    simp only [h]

/-- C3 witness: the sample output of the source comment yields its
free-byte figure. -/
theorem c3_witness :
    remoteSpaceAvailable
        ⟨"A:n", "cf3:", "s.cfg", "d.cfg", "put",
          fun _ => "               3 Dir(s)               961531904 bytes free.",
          fun _ => 0, fun _ => false⟩ =
      Except.ok 961531904 :=
  (c3_space_available_amended
      ⟨"A:n", "cf3:", "s.cfg", "d.cfg", "put",
        fun _ => "               3 Dir(s)               961531904 bytes free.",
        fun _ => 0, fun _ => false⟩).1 961531904 (by rfl)

/-- C7 counterexample: an output *containing* the documented listing
line does not always yield 6738 — the `File Not Found` test runs first,
so an output containing both raises `IOError` instead. -/
theorem c7_counterexample :
    containsSub "10/16/2019  10:00p                6738 config.cfg"
      "File Not Found\n10/16/2019  10:00p                6738 config.cfg" =
      true ∧
    remoteFileSizeParse "config.cfg"
      "File Not Found\n10/16/2019  10:00p                6738 config.cfg" =
      Except.error (PyErr.ioError "Unable to find file on remote system") := by
  refine ⟨by rfl, by rfl⟩

/-- C7 amended: `remote_file_size` given output equal to the listing
line `10/16/2019  10:00p                6738 config.cfg` and requested
file `config.cfg` returns 6738; any output containing `File Not Found`
raises `IOError` (this check takes precedence over listing parsing);
and output with neither `File Not Found` nor a line matching
`<date> <time> <size> <literally-escaped filename>` fails with
`ValueError` (the spec's ParseError). -/
theorem c7_file_size_amended (out rf : String) :
    (remoteFileSizeParse "config.cfg"
        "10/16/2019  10:00p                6738 config.cfg" =
      Except.ok 6738) ∧
    (containsSub "File Not Found" out = true →
      remoteFileSizeParse rf out =
        Except.error (PyErr.ioError "Unable to find file on remote system")) ∧
    (containsSub "File Not Found" out = false →
      searchFileSize rf.toList out.toList = none →
      remoteFileSizeParse rf out =
        Except.error (PyErr.valueError "Filename entry not found in dir output")) := by
  refine ⟨by rfl, ?_, ?_⟩
  · intro h
    unfold remoteFileSizeParse
    simp only [h, if_true]
  · intro h1 h2
    unfold remoteFileSizeParse
    simp only [h1, h2, Bool.false_eq_true, if_false]

/-- C7 witness: the `IOError` branch on a `File Not Found` output and
the `ValueError` branch on an output with no matching line. -/
theorem c7_witness :
    remoteFileSizeParse "config.cfg" "File Not Found" =
      Except.error (PyErr.ioError "Unable to find file on remote system") ∧
    remoteFileSizeParse "config.cfg" "empty directory" =
      Except.error (PyErr.valueError "Filename entry not found in dir output") :=
  ⟨(c7_file_size_amended "File Not Found" "config.cfg").2.1 (by rfl),
   (c7_file_size_amended "empty directory" "config.cfg").2.2 (by rfl) (by rfl)⟩

/-- C9: `compare_md5` is extensionally equal to `verify_file` — for
every direction and file configuration it returns exactly the
size-equality result of `verify_file` — and no hash is ever computed:
`process_md5` returns `None` on every input. -/
theorem c9_compare_md5_is_verify_file (st : FtState) :
    compareMd5 st = verifyFile st ∧
    (st.direction = "put" →
      compareMd5 st = (remoteFileSize st st.destFile).map
        (fun n => some (decide (st.localSize st.sourceFile = n)))) ∧
    (st.direction = "get" →
      compareMd5 st = (remoteFileSize st st.sourceFile).map
        (fun n => some (decide (n = st.localSize st.destFile)))) ∧
    (∀ s p, processMd5 s p = none) := by
  refine ⟨rfl, ?_, ?_, fun s p => rfl⟩
  · intro h
    unfold compareMd5 verifyFile
    simp [h]
  · intro h
    unfold compareMd5 verifyFile
    simp [h]

/-- C9 witness: a put transfer whose local and remote sizes agree
reports a match through the size comparison. -/
theorem c9_witness :
    compareMd5
        ⟨"A:n", "cf3:", "local.cfg", "config.cfg", "put",
          fun _ => "10/16/2019  10:00p                6738 config.cfg",
          fun _ => 6738, fun _ => true⟩ =
      Except.ok (some true) :=
  ((c9_compare_md5_is_verify_file
      ⟨"A:n", "cf3:", "local.cfg", "config.cfg", "put",
        fun _ => "10/16/2019  10:00p                6738 config.cfg",
        fun _ => 6738, fun _ => true⟩).2.1 rfl).trans (by rfl)

/-- C10: for every direction other than `put` and `get`,
`check_file_exists` and `verify_file` return Python `None` — no error is
raised and, the result being fixed for every state, no remote
interaction can influence it: the unrecognized direction falls through
silently. -/
theorem c10_unrecognized_direction (st : FtState) (remoteCmd : String)
    (h1 : st.direction ≠ "put") (h2 : st.direction ≠ "get") :
    checkFileExists st remoteCmd = Except.ok none ∧
    verifyFile st = Except.ok none := by
  constructor
  · unfold checkFileExists
    rw [if_neg h1, if_neg h2]
  · unfold verifyFile
    rw [if_neg h1, if_neg h2]

/-- C10 witness: direction `push` is neither `put` nor `get`. -/
theorem c10_witness :
    checkFileExists
        ⟨"A:n", "cf3:", "s.cfg", "d.cfg", "push",
          fun _ => "", fun _ => 0, fun _ => false⟩ "" =
      Except.ok none ∧
    verifyFile
        ⟨"A:n", "cf3:", "s.cfg", "d.cfg", "push",
          fun _ => "", fun _ => 0, fun _ => false⟩ =
      Except.ok none :=
  c10_unrecognized_direction
    ⟨"A:n", "cf3:", "s.cfg", "d.cfg", "push",
      fun _ => "", fun _ => 0, fun _ => false⟩ ""
    (by decide) (by decide)
